import Mathlib

/-!
Verification of the deer-flow plan-execution and context-budget core.

Shallow embedding of the relevant source files:
 - src/prompts/planner_model.py   (Plan / Step data model)
 - src/graph/builder.py           (research-team routing functions)
 - src/graph/nodes.py             (planner / human-feedback / base step executor)
 - src/graph/nodes_enhanced.py    (dependency context builder, enhanced executor)
 - src/utils/token_manager.py     (budget manager: trim + observation compaction)
 - src/utils/token_counter.py     (token counter implementations)

Python strings are modelled as Lean `String` (Python slicing helpers are defined
below so each slice expression maps one-to-one), Python `Optional[str]` as
`Option String`, Python truthiness of an optional string as `resTruthy`.
-/

namespace DeerFlow

/-! ### Generic helpers: Python string/list operations -/

/-- Python slice `s[:k]`. -/
def str_take (s : String) (k : Nat) : String := ⟨s.data.take k⟩

/-- Python slice `s[-k:]` (note the Python quirk: `s[-0:]` is the whole string). -/
def str_tail (s : String) (k : Nat) : String :=
  if k = 0 then s else ⟨s.data.drop (s.data.length - k)⟩

/-- Python slice `xs[-k:]` on lists (again `xs[-0:]` is the whole list). -/
def list_tail_slice {α : Type} (xs : List α) (k : Nat) : List α :=
  if k = 0 then xs else xs.drop (xs.length - k)

/-- Does the first list start with the second one? -/
def list_starts_with : List Char → List Char → Bool
  | _, [] => true
  | [], _ :: _ => false
  | a :: as, b :: bs => a == b && list_starts_with as bs

/-- Does the haystack contain the pattern as a contiguous sub-list? -/
def list_contains_sub (pat : List Char) : List Char → Bool
  | [] => list_starts_with [] pat
  | a :: as => list_starts_with (a :: as) pat || list_contains_sub pat as

/-- Python `pat in s` (substring containment). -/
def str_has (s pat : String) : Bool := list_contains_sub pat.data s.data

/-- Python `s.lower()` (the source only relies on ASCII case folding). -/
def py_lower (s : String) : String := ⟨s.data.map Char.toLower⟩

/-- Python `s.upper()` (the source only relies on ASCII case folding). -/
def py_upper (s : String) : String := ⟨s.data.map Char.toUpper⟩

/-- Python `s.startswith(pre)`. -/
def py_startswith (s pre : String) : Bool := list_starts_with s.data pre.data

/-- Python `s.strip()`: drop leading and trailing whitespace. -/
def py_strip (s : String) : String :=
  ⟨((s.data.dropWhile Char.isWhitespace).reverse.dropWhile Char.isWhitespace).reverse⟩

/-- Python `s.split(c)` for a one-character separator (keeps empty fragments,
as Python does for an explicit separator). -/
def py_split_char (s : String) (c : Char) : List String :=
  (s.data.foldr (fun ch acc =>
    match acc with
    | [] => [[ch]]
    | g :: gs => if ch == c then [] :: g :: gs else (ch :: g) :: gs) [[]]).map
    (fun l => ⟨l⟩)

/-- The fragments of a predicate split; Python `s.split()` is this with the
whitespace predicate followed by discarding empty fragments. -/
def py_split_pred (s : String) (p : Char → Bool) : List String :=
  (s.data.foldr (fun ch acc =>
    match acc with
    | [] => [[ch]]
    | g :: gs => if p ch then [] :: g :: gs else (ch :: g) :: gs) [[]]).map
    (fun l => ⟨l⟩)

/-- Python `s.replace(c, d)` for one-character arguments. -/
def py_replace_char (s : String) (c d : Char) : String :=
  ⟨s.data.map (fun ch => if ch == c then d else ch)⟩

/-- Python truthiness of an `Optional[str]` value (`None` and `""` are falsy). -/
def resTruthy : Option String → Bool
  | Option.none => false
  | some s => s != ""

/-- Python `str(x)` on an `Optional[str]` (`None` prints as `"None"`). -/
def py_str_opt : Option String → String
  | Option.none => "None"
  | some s => s

/-! ### Data model (src/prompts/planner_model.py)

The database-query optimisation fields of `Step` (query_strategy, batch_size,
max_batches, sampling_rate, justification, expected_result_size) play no role
in any routing, budgeting or context-building code and are omitted. -/

inductive StepType
  | research
  | processing
deriving DecidableEq

inductive DependencyType
  | none
  | summary
  | key_points
  | full
deriving DecidableEq

inductive ExecutionStatus
  | pending
  | completed
  | failed
  | skipped
  | rate_limited
deriving DecidableEq

/-- The `.value` of an `ExecutionStatus` enum member. -/
def status_value : ExecutionStatus → String
  | .pending => "pending"
  | .completed => "completed"
  | .failed => "failed"
  | .skipped => "skipped"
  | .rate_limited => "rate_limited"

structure Step where
  need_search : Bool
  title : String
  description : String
  step_type : StepType
  execution_res : Option String := Option.none
  execution_status : ExecutionStatus := .pending
  error_message : Option String := Option.none
  depends_on : List Nat := []
  dependency_type : DependencyType := .none
  required_info : List String := []
deriving DecidableEq

structure Plan where
  locale : String
  has_enough_context : Bool
  thought : String
  title : String
  steps : List Step := []
deriving DecidableEq

/-! ### Routing functions (src/graph/builder.py) -/

/-- `continue_to_running_research_team` from src/graph/builder.py.
The Python function can fall through without a `return` (yielding `None`),
hence the `Option String` result. -/
def continue_to_running_research_team (current_plan : Option Plan) : Option String :=
  match current_plan with
  | Option.none => some "planner"
  | some plan =>
    if plan.steps.isEmpty then some "planner"
    else if plan.steps.all (fun s => resTruthy s.execution_res) then some "planner"
    else
      match plan.steps.find? (fun s => !resTruthy s.execution_res) with
      | Option.none => some "planner"
      | some s =>
        match s.step_type with
        | .research => some "researcher"
        | .processing => some "coder"

/-- `continue_to_running_database_research_team` from src/graph/builder.py. -/
def continue_to_running_database_research_team (current_plan : Option Plan) : Option String :=
  match current_plan with
  | Option.none => some "reporter"
  | some plan =>
    if plan.steps.isEmpty then some "reporter"
    else if plan.steps.all (fun s => resTruthy s.execution_res) then some "reporter"
    else
      match plan.steps.find? (fun s => !resTruthy s.execution_res) with
      | Option.none => some "reporter"
      | some _ => some "researcher"

/-! ### Planner / human-feedback parse handling (src/graph/nodes.py) -/

/-- The routing decision of `planner_node` after attempting to parse the
planner output (src/graph/nodes.py lines 210-234).  `parsed = none` models a
`json.JSONDecodeError`; `parsed = some b` models a successful parse whose
`has_enough_context` field is `b`. -/
def planner_goto_after_parse (parsed : Option Bool) (plan_iterations : Nat) : String :=
  match parsed with
  | Option.none => if plan_iterations > 0 then "reporter" else "__end__"
  | some has_enough_context => if has_enough_context then "reporter" else "human_feedback"

/-- The routing decision of `human_feedback_node` after attempting to parse
the plan (src/graph/nodes.py lines 262-286).  The local `plan_iterations`
counter is incremented before the parse, so the parse-failure branch compares
`plan_iterations + 1 > 1`. -/
def human_feedback_goto_after_parse (parsed : Option Bool) (plan_iterations : Nat) : String :=
  match parsed with
  | Option.none => if plan_iterations + 1 > 1 then "reporter" else "__end__"
  | some has_enough_context => if has_enough_context then "reporter" else "research_team"

/-- Outcome of the review section of `human_feedback_node`
(src/graph/nodes.py lines 240-259). -/
inductive FeedbackDecision
  | edit_plan (appended_feedback : String)
  | accepted
  | type_error
  | auto_accepted
deriving DecidableEq

/-- The review section of `human_feedback_node`: when the plan is not
auto-accepted, the interrupt payload is matched case-insensitively against the
`[EDIT_PLAN]` and `[ACCEPTED]` prefixes; anything else raises `TypeError`.
`edit_plan` carries the feedback that is appended to the message history. -/
def human_feedback_decision (auto_accepted_plan : Bool) (feedback : String) : FeedbackDecision :=
  if auto_accepted_plan then .auto_accepted
  else if feedback != "" && py_startswith (py_upper feedback) "[EDIT_PLAN]" then .edit_plan feedback
  else if feedback != "" && py_startswith (py_upper feedback) "[ACCEPTED]" then .accepted
  else .type_error

/-! ### Token counters (src/utils/token_counter.py)

`professional_token_counter` in src/utils/token_manager.py converts the
langchain message objects to `{"role": ..., "content": ...}` dictionaries
before counting, so counters operate on `MessageDict`. -/

structure MessageDict where
  role : String
  content : String
deriving DecidableEq

/-- Python `int(q)` (truncation toward zero) on an exact rational. -/
def int_trunc (q : ℚ) : ℤ := q.num.tdiv q.den

/-- `ApproximateTokenCounter.count_tokens`: character count divided by the
average characters-per-token ratio, plus a fixed overhead of 5, floored at 1;
empty text counts as 0.  The Python float ratio (4.0, 3.5, 3.8 or 4.2) is
modelled exactly in tenths of a character, so `int(len(text)/ratio)` becomes
`len * 10 / tenths` in floor division. -/
def approx_count_tokens (chars_per_token_tenths : Nat) (text : String) : Nat :=
  if text = "" then 0
  else max 1 (text.length * 10 / chars_per_token_tenths + 5)

/-- `ApproximateTokenCounter.count_messages_tokens`: per-message content count
plus a role overhead of 3 per message, plus a structure overhead of 2 per
message; the empty batch counts as 0. -/
def approx_count_messages_tokens (chars_per_token_tenths : Nat)
    (messages : List MessageDict) : Nat :=
  if messages = [] then 0
  else (messages.map
          (fun m => approx_count_tokens chars_per_token_tenths m.content + 3)).sum
       + 2 * messages.length

/-- `TiktokenCounter._format_messages_for_counting`: each message is rendered
as an im_start/im_end block and the blocks are joined with a newline. -/
def format_messages_for_counting (messages : List MessageDict) : String :=
  String.intercalate "\n"
    (messages.map (fun m => "<|im_start|>" ++ m.role ++ "\n" ++ m.content ++ "<|im_end|>"))

/-- `TiktokenCounter.count_tokens`.  The encoding itself lives in the external
tiktoken library; it is abstracted as `enc_len`, the length of the token list
the encoder produces for a text.  Empty text counts as 0 (as in the source). -/
def tiktoken_count_tokens (enc_len : String → Nat) (text : String) : Nat :=
  if text = "" then 0 else enc_len text

/-- `TiktokenCounter.count_messages_tokens`: the whole batch is formatted into
a single string and tokenized at once. -/
def tiktoken_count_messages_tokens (enc_len : String → Nat) (messages : List MessageDict) : Nat :=
  if messages = [] then 0 else tiktoken_count_tokens enc_len (format_messages_for_counting messages)

/-- `TokenCounterFactory._get_chars_per_token`: first matching model-family
pattern in `CHARS_PER_TOKEN_MAPPING` (dict iteration order), else the default;
the returned ratio is in tenths of a character (3.5 ↦ 35 and so on). -/
def chars_per_token_of (model_name : String) : Nat :=
  let model_lower := py_lower model_name
  if str_has model_lower "gemini" then 35
  else if str_has model_lower "deepseek" then 40
  else if str_has model_lower "claude" then 38
  else if str_has model_lower "qwen" then 42
  else if str_has model_lower "llama" then 40
  else if str_has model_lower "default" then 40
  else 40

/-! ### Token manager configuration (src/utils/token_manager.py)

The YAML configuration is modelled as a record; `.get(key, default)` accesses
on the per-node strategy dict are modelled as `Option` fields resolved with
`getD` at exactly the call sites where the source supplies the default. -/

structure NodeStrategy where
  max_tokens : Option Nat := Option.none
  strategy : Option String := Option.none
  include_system : Option Bool := Option.none
  reserve_for_output : Option Nat := Option.none
deriving DecidableEq

structure TokenManagementConfig where
  enabled : Bool
  safety_margin : ℚ := 1/5
  model_limits : List (String × Nat) := []
  trimming_strategies : List (String × NodeStrategy) := []
  max_full_observations : Nat := 3
  max_observation_length : Nat := 5000
  enable_summarization : Bool := true
  summary_target_length : Nat := 1000

/-- `TokenManager.get_model_limit`. -/
def get_model_limit (cfg : TokenManagementConfig) (model_name : String) : Nat :=
  (List.lookup model_name cfg.model_limits).getD
    ((List.lookup "default" cfg.model_limits).getD 4096)

/-- `TokenManager.get_trimming_strategy` (a missing entry, returned as `{}` in
Python, is modelled as `none`). -/
def get_trimming_strategy (cfg : TokenManagementConfig) (node_name : String) :
    Option NodeStrategy :=
  List.lookup node_name cfg.trimming_strategies

/-- `TokenManager.calculate_available_tokens`: apply the safety margin to the
model limit, subtract the reserve-for-output of the node strategy, and floor
the result at 1000. -/
def calculate_available_tokens (cfg : TokenManagementConfig)
    (model_name node_name : String) : ℤ :=
  let model_limit := get_model_limit cfg model_name
  let strategy := get_trimming_strategy cfg node_name
  let effective_limit : ℤ := int_trunc ((model_limit : ℚ) * (1 - cfg.safety_margin))
  let reserve_for_output : ℤ :=
    ((strategy.map (fun s => s.reserve_for_output.getD 0)).getD 0 : Nat)
  max (effective_limit - reserve_for_output) 1000

/-! ### Observation compaction (src/utils/token_manager.py, `manage_observations`) -/

/-- The per-entry length cap of `manage_observations`: entries within the cap
are kept; longer ones are replaced by a head+tail excerpt (when summarization
is enabled) or by a head excerpt with a marker. -/
def truncate_observation (cfg : TokenManagementConfig) (obs : String) : String :=
  if obs.length ≤ cfg.max_observation_length then obs
  else if cfg.enable_summarization then
    str_take obs (cfg.summary_target_length / 2)
      ++ "\n\n[... content truncated ...]\n\n"
      ++ str_tail obs ((cfg.summary_target_length + 1) / 2)
  else str_take obs cfg.max_observation_length ++ "\n\n[... truncated ...]"

/-- The count cap of `manage_observations`: keep the most recent
`max_full_observations` entries, prepending a summary marker when
summarization is enabled. -/
def cap_observation_count (cfg : TokenManagementConfig)
    (managed_observations : List String) : List String :=
  if managed_observations.length > cfg.max_full_observations then
    if cfg.enable_summarization then
      let recent_observations := list_tail_slice managed_observations cfg.max_full_observations
      let older_count := managed_observations.length - cfg.max_full_observations
      ("[" ++ Nat.repr older_count ++ " earlier observations summarized]") :: recent_observations
    else list_tail_slice managed_observations cfg.max_full_observations
  else managed_observations

/-- `TokenManager.manage_observations`, written out as in the source: the
per-entry loop first, then the count limit. -/
def manage_observations (cfg : TokenManagementConfig) (observations : List String) :
    List String :=
  if !cfg.enabled then observations
  else
    let managed_observations := observations.map (fun obs =>
      if obs.length ≤ cfg.max_observation_length then obs
      else if cfg.enable_summarization then
        str_take obs (cfg.summary_target_length / 2)
          ++ "\n\n[... content truncated ...]\n\n"
          ++ str_tail obs ((cfg.summary_target_length + 1) / 2)
      else str_take obs cfg.max_observation_length ++ "\n\n[... truncated ...]")
    if managed_observations.length > cfg.max_full_observations then
      if cfg.enable_summarization then
        let recent_observations := list_tail_slice managed_observations cfg.max_full_observations
        let older_count := managed_observations.length - cfg.max_full_observations
        ("[" ++ Nat.repr older_count ++ " earlier observations summarized]") :: recent_observations
      else list_tail_slice managed_observations cfg.max_full_observations
    else managed_observations

/-! ### Message trimming (src/utils/token_manager.py, `trim_messages_for_node`) -/

inductive MessageRole
  | system
  | user
  | assistant
deriving DecidableEq

structure Message where
  role : MessageRole
  content : String
deriving DecidableEq

/-- The role-string conversion performed by `professional_token_counter` in
`trim_messages_for_node` before counting. -/
def message_to_dict (m : Message) : MessageDict :=
  ⟨match m.role with
    | .system => "system"
    | .user => "user"
    | .assistant => "assistant",
   m.content⟩

/-- The `professional_token_counter` closure of `trim_messages_for_node`,
instantiated with the approximate counter family (the factory falls back to
`ApproximateTokenCounter` for every model outside the small gpt family, whose
exact tiktoken encoder is external). -/
def professional_token_counter (model_name : String) (messages : List Message) : Nat :=
  approx_count_messages_tokens (chars_per_token_of model_name)
    (messages.map message_to_dict)

/-- Longest suffix of the list satisfying the predicate; the empty suffix is
returned (without testing the predicate) when no non-empty suffix fits. -/
def first_fitting_suffix {α : Type} (pred : List α → Bool) : List α → List α
  | [] => []
  | a :: as => if pred (a :: as) then a :: as else first_fitting_suffix pred as

/-- Longest prefix of the list satisfying the predicate (the empty prefix is
the fallback). -/
def longest_fitting_head {α : Type} (pred : List α → Bool) (xs : List α) : List α :=
  xs.take (((List.range (xs.length + 1)).filter (fun k => pred (xs.take k))).foldl max 0)

/-- Modelled from the spec: the external langchain `trim_messages` call used by
`trim_messages_for_node` is not part of this repository.  Following the spec
(section 4.2, step 4), whole entries are removed from the configured direction
until the token count fits the budget: strategy "last" keeps a suffix (drop
oldest first), strategy "first" keeps a head; with `include_system` set, a
leading system entry is always retained regardless of direction. -/
def langchain_trim_messages (token_counter : List Message → Nat) (max_tokens : Nat)
    (strategy : String) (include_system : Bool) (messages : List Message) : List Message :=
  if strategy = "first" then
    longest_fitting_head (fun p => decide (token_counter p ≤ max_tokens)) messages
  else
    match messages with
    | [] => []
    | m :: rest =>
      if include_system && m.role == .system then
        m :: first_fitting_suffix (fun s => decide (token_counter (m :: s) ≤ max_tokens)) rest
      else
        first_fitting_suffix (fun s => decide (token_counter s ≤ max_tokens)) (m :: rest)

/-- `TokenManager._fallback_trim`: keep all system messages plus the most
recent `max_messages` non-system messages (Python `[-k:]` slicing, so
`max_messages = 0` keeps every non-system message). -/
def fallback_trim (messages : List Message) (max_messages : Nat) : List Message :=
  if messages.length ≤ max_messages then messages
  else
    let system_messages := messages.filter (fun m => m.role == .system)
    let other_messages := messages.filter (fun m => !(m.role == .system))
    system_messages ++ list_tail_slice other_messages max_messages

/-- The `max_tokens` resolution at the start of `trim_messages_for_node`:
Python `if not max_tokens` treats both a missing key and a configured 0 as
absent and recomputes via `calculate_available_tokens`. -/
def resolve_max_tokens (cfg : TokenManagementConfig) (strategy : NodeStrategy)
    (model_name node_name : String) : Nat :=
  match strategy.max_tokens with
  | some m => if m = 0 then (calculate_available_tokens cfg model_name node_name).toNat else m
  | Option.none => (calculate_available_tokens cfg model_name node_name).toNat

/-- `TokenManager.trim_messages_for_node`.  `counter_ok = false` models the
`except` branch: any exception raised while trimming/counting is caught and
the heuristic `_fallback_trim` result is returned instead (the function never
re-raises). -/
def trim_messages_for_node (cfg : TokenManagementConfig) (counter_ok : Bool)
    (messages : List Message) (model_name node_name : String) : List Message :=
  if !cfg.enabled then messages
  else
    match get_trimming_strategy cfg node_name with
    | Option.none => messages
    | some strategy =>
      let max_tokens := resolve_max_tokens cfg strategy model_name node_name
      if counter_ok then
        langchain_trim_messages (professional_token_counter model_name) max_tokens
          (strategy.strategy.getD "last") (strategy.include_system.getD true) messages
      else fallback_trim messages (max_tokens / 100)

/-! ### Dependency context builder (src/graph/nodes_enhanced.py) -/

/-- The tuple of line starts that `generate_step_summary` treats as
heading/bullet lines. -/
def summary_special_starts : List String := ["##", "*", "-", "•", "1.", "2.", "3."]

/-- The accumulation loop of `generate_step_summary`: walk the lines, keeping
heading/bullet lines while they fit the cap and ordinary lines while under
half the cap, stopping once the running character count reaches the cap. -/
def summary_loop (max_length : Nat) : List String → Nat → List String
  | [], _ => []
  | line :: rest, char_count =>
    let is_special := summary_special_starts.any (fun p => py_startswith (py_strip line) p)
    let keep : Bool :=
      if is_special then decide (char_count + line.length < max_length)
      else decide (char_count < max_length / 2)
    let new_count := if keep then char_count + line.length else char_count
    let kept := if keep then [line] else []
    if new_count ≥ max_length then kept
    else kept ++ summary_loop max_length rest new_count

/-- `generate_step_summary` from src/graph/nodes_enhanced.py (`max_length`
defaults to 500 at the call site). -/
def generate_step_summary (execution_result : Option String) (max_length : Nat) : String :=
  if !resTruthy execution_result then "No results available"
  else
    let s := execution_result.getD ""
    if s.length ≤ max_length then s
    else
      let summary := String.intercalate "\n" (summary_loop max_length (py_split_char s (Char.ofNat 10)) 0)
      if summary.length > max_length then str_take summary max_length ++ "..." else summary

/-- Python `info_type.lower().replace('_', ' ').split()` in
`extract_required_info`: whitespace-split with empty fragments discarded. -/
def search_terms_of (info_type : String) : List String :=
  (py_split_pred (py_replace_char (py_lower info_type) (Char.ofNat 95) (Char.ofNat 32))
    (fun c => c.isWhitespace)).filter (fun t => t != "")

/-- Does a result line match any of the search terms (Python
`any(term in line.lower() for term in search_terms)`)? -/
def line_matches (search_terms : List String) (line : String) : Bool :=
  search_terms.any (fun term => str_has (py_lower line) term)

/-- The line-collection loop of `extract_required_info`: each matching line is
appended (stripped), followed by its stripped successor line when that
successor is non-blank. -/
def topic_relevant_lines (search_terms : List String) : List String → List String
  | [] => []
  | [line] => if line_matches search_terms line then [py_strip line] else []
  | line :: next :: rest =>
    (if line_matches search_terms line then
      py_strip line :: (if py_strip next != "" then [py_strip next] else [])
     else [])
    ++ topic_relevant_lines search_terms (next :: rest)

/-- The per-topic block of `extract_required_info`: the first 3 collected
lines under a `### topic` header, or an explicit no-data marker. -/
def extract_topic_block (execution_result : String) (info_type : String) : String :=
  if topic_relevant_lines (search_terms_of info_type)
      (py_split_char execution_result (Char.ofNat 10)) != [] then
    "### " ++ info_type ++ "\n"
      ++ String.intercalate "\n"
          ((topic_relevant_lines (search_terms_of info_type)
            (py_split_char execution_result (Char.ofNat 10))).take 3)
  else "### " ++ info_type ++ "\nNo specific data found"

/-- `extract_required_info` from src/graph/nodes_enhanced.py. -/
def extract_required_info (execution_result : String) (required_info : List String) : String :=
  if required_info = [] then "No specific information requested"
  else
    let extracted := required_info.map (extract_topic_block execution_result)
    if extracted != [] then String.intercalate "\n\n" extracted
    else "No matching information found for requested data points"

/-- The trailing current-task section of `build_context_for_step`. -/
def current_task_block (current_step : Step) : String :=
  "# Current Step\n\n## Title\n" ++ current_step.title
    ++ "\n\n## Description\n" ++ current_step.description

/-- One iteration of the dependency loop in `build_context_for_step`: the text
appended for `dep_index`.  An out-of-range index contributes nothing (the
source logs a warning and continues).  A dependency whose status is not
`completed` gets a status-annotated heading followed by its recorded result in
finding tags when a (truthy) result exists, else a short failure note.
A completed dependency is rendered per the dependency detail level; the final
catch-all branch of the source (unknown level defaults to full) is taken by
the `none` level, which cannot actually reach this loop. -/
def dep_block (completed_steps : List Step) (current_step_def : Step)
    (dep_index : Nat) : String :=
  match completed_steps[dep_index]? with
  | Option.none => ""
  | some dep_step =>
    if dep_step.execution_status ≠ .completed then
      "## Completed Step " ++ Nat.repr (dep_index + 1) ++ ": " ++ dep_step.title
        ++ " (Status: " ++ status_value dep_step.execution_status ++ ")\n"
        ++ (if resTruthy dep_step.execution_res then
              "<finding>\n" ++ py_str_opt dep_step.execution_res ++ "\n</finding>\n\n"
            else "No results available due to execution failure.\n\n")
    else
      match current_step_def.dependency_type with
      | .summary =>
        "## Completed Step " ++ Nat.repr (dep_index + 1) ++ ": " ++ dep_step.title ++ "\n"
          ++ generate_step_summary dep_step.execution_res 500 ++ "\n\n"
      | .key_points =>
        "## Completed Step " ++ Nat.repr (dep_index + 1) ++ ": " ++ dep_step.title ++ "\n"
          ++ extract_required_info (py_str_opt dep_step.execution_res)
               current_step_def.required_info ++ "\n\n"
      | .full =>
        "## Completed Step " ++ Nat.repr (dep_index + 1) ++ ": " ++ dep_step.title ++ "\n"
          ++ "<finding>\n" ++ py_str_opt dep_step.execution_res ++ "\n</finding>\n\n"
      | .none =>
        "## Completed Step " ++ Nat.repr (dep_index + 1) ++ ": " ++ dep_step.title ++ "\n"
          ++ "<finding>\n" ++ py_str_opt dep_step.execution_res ++ "\n</finding>\n\n"

/-- `build_context_for_step` from src/graph/nodes_enhanced.py.  The Python
expression `plan.steps[current_step_index]` raises `IndexError` when the index
is out of range, modelled as `none`. -/
def build_context_for_step (current_step_index : Nat) (completed_steps : List Step)
    (plan : Plan) (current_step : Step) : Option String :=
  match plan.steps[current_step_index]? with
  | Option.none => Option.none
  | some current_step_def =>
    if current_step_def.depends_on = [] ∨ current_step_def.dependency_type = .none then
      some (current_task_block current_step)
    else
      some ((current_step_def.depends_on.foldl
              (fun context dep_index => context ++ dep_block completed_steps current_step_def dep_index)
              "# Relevant Previous Findings\n\n")
            ++ current_task_block current_step)

/-! ### Step executors (src/graph/nodes_enhanced.py and src/graph/nodes.py) -/

/-- The state-relevant outcome of one step-executor invocation: the mutated
step, the updated observation list, and the routing target of the returned
`Command`. -/
structure StepExecOutcome where
  step : Step
  observations : List String
  goto : String
deriving DecidableEq

/-- The outcome of `_execute_agent_step_with_dependencies`
(src/graph/nodes_enhanced.py lines 598-654) as a function of the agent call
result.  `Except.error e` models `agent.ainvoke` raising an exception with
message `e`; every exception is caught, classified by substring tests on the
message, and recorded on the step — control always returns to the
research_team router. -/
def execute_agent_step_with_dependencies (current_step : Step)
    (observations : List String) (agent_result : Except String String) : StepExecOutcome :=
  let updated_step :=
    match agent_result with
    | .ok response_content =>
      { current_step with
          execution_res := some response_content,
          execution_status := .completed }
    | .error error_message =>
      if str_has error_message "Content Exists Risk" then
        { current_step with
            execution_status := .skipped,
            error_message := some ("Content Exists Risk: " ++ error_message),
            execution_res := some "Step skipped due to content safety restrictions." }
      else if str_has error_message "400" || str_has error_message "BadRequestError" then
        { current_step with
            execution_status := .failed,
            error_message := some ("API Error: " ++ error_message),
            execution_res := some "Step failed due to API error." }
      else if str_has error_message "429" || str_has (py_lower error_message) "rate_limit" then
        { current_step with
            execution_status := .rate_limited,
            error_message := some ("Rate Limit: " ++ error_message),
            execution_res := some "Step failed due to API rate limit." }
      else
        { current_step with
            execution_status := .failed,
            error_message := some ("Unexpected Error: " ++ error_message),
            execution_res := some "Step failed due to unexpected error." }
  let message_content :=
    if resTruthy updated_step.execution_res then py_str_opt updated_step.execution_res
    else "Step execution failed"
  ⟨updated_step, observations ++ [message_content], "research_team"⟩

/-- A provider exception as classified by
`ContentSafetyHandler.is_content_safety_error`
(src/utils/content_safety_handler.py): only `openai.BadRequestError` instances
whose message contains one of the safety keywords are content-safety errors. -/
structure ProviderError where
  is_bad_request : Bool
  message : String
deriving DecidableEq

def safety_keywords : List String :=
  ["Content Exists Risk", "content safety", "content moderation",
   "inappropriate content", "harmful content"]

def is_content_safety_error (e : ProviderError) : Bool :=
  e.is_bad_request && safety_keywords.any (fun keyword => str_has e.message keyword)

/-- The synthetic safety response built by `_execute_agent_step`
(src/graph/nodes.py lines 701-711) when a content-safety error is
auto-continued. -/
def safe_response_content (step_title : String) : String :=
  "⚠️ **内容安全提示** ⚠️\n\n"
    ++ "🚫 **检测到内容风险**: 当前查询内容触发了API的安全检查机制\n\n"
    ++ "🔧 **自动处理**: 系统已自动过滤风险内容并继续执行\n\n"
    ++ "📋 **当前任务**: " ++ step_title ++ "\n\n"
    ++ "💡 **建议**: 如需更详细信息，请尝试:\n"
    ++ "• 调整查询关键词，避免敏感词汇\n"
    ++ "• 换个角度或更具体的方式描述问题\n"
    ++ "• 将复杂问题分解为多个简单查询\n\n"
    ++ "✅ **继续执行**: 系统将跳过此部分内容，继续执行后续研究步骤..."

/-- The oversized-response guard of `_execute_agent_step`
(src/graph/nodes.py lines 736-746): responses beyond 15000 characters are
replaced by a head+tail excerpt around a marker noting the original length. -/
def truncate_response (response_content : String) : String :=
  if response_content.length > 15000 then
    str_take response_content 7500
      ++ "\n\n[... 响应内容已截断，原长度: " ++ Nat.repr response_content.length
      ++ " 字符 ...]\n\n"
      ++ str_tail response_content 7500
  else response_content

/-- The outcome of the base `_execute_agent_step` (src/graph/nodes.py lines
666-817) as a function of the agent call result.  A content-safety error is
auto-continued (the handler always returns "continue") with the synthetic
safety response recorded as the step result; any other exception re-raises,
modelled as `none`.  This executor sets `execution_res` only — it never
touches `execution_status`. -/
def execute_agent_step (current_step : Step) (observations : List String)
    (agent_result : Except ProviderError String) : Option StepExecOutcome :=
  match agent_result with
  | .ok content =>
    let response_content := truncate_response content
    some ⟨{ current_step with execution_res := some response_content },
          observations ++ [response_content], "research_team"⟩
  | .error e =>
    if is_content_safety_error e then
      let response_content := truncate_response (safe_response_content current_step.title)
      some ⟨{ current_step with execution_res := some response_content },
            observations ++ [response_content], "research_team"⟩
    else Option.none

/-! ### Helper lemmas -/

theorem list_starts_with_append (x y : List Char) :
    list_starts_with (x ++ y) x = true := by
  induction x with
  | nil => cases y <;> rfl
  | cons a as ih => simp [list_starts_with, ih]

theorem list_starts_with_of_append {x pat : List Char} (y : List Char)
    (h : list_starts_with x pat = true) : list_starts_with (x ++ y) pat = true := by
  induction pat generalizing x with
  | nil => cases x <;> cases y <;> rfl
  | cons b bs ih =>
    cases x with
    | nil => exact absurd h (by simp [list_starts_with])
    | cons a as =>
      simp only [list_starts_with, Bool.and_eq_true] at h ⊢
      exact ⟨h.1, ih h.2⟩

theorem list_contains_sub_of_starts (pat hay : List Char)
    (h : list_starts_with hay pat = true) : list_contains_sub pat hay = true := by
  cases hay with
  | nil => exact h
  | cons a as => simp [list_contains_sub, h]

theorem list_contains_sub_append_right (pat a b : List Char)
    (h : list_contains_sub pat b = true) : list_contains_sub pat (a ++ b) = true := by
  induction a with
  | nil => exact h
  | cons x xs ih => simp [list_contains_sub, ih]

theorem str_has_append_left (p r : String) : str_has (p ++ r) p = true := by
  unfold str_has
  rw [show (p ++ r).data = p.data ++ r.data from rfl]
  exact list_contains_sub_of_starts _ _ (list_starts_with_append _ _)

/-! ### Claim C9 -/

/-- C9: for every configuration, model name and stage/node name, the derived
context budget `calculate_available_tokens` — the safety-margin-reduced model
limit minus the reserve-for-output, floored — is at least the minimum floor of
1000 tokens, even when the configured reserve exceeds the model limit. -/
theorem calculate_available_tokens_min_floor
    (cfg : TokenManagementConfig) (model_name node_name : String) :
    1000 ≤ calculate_available_tokens cfg model_name node_name :=
  le_max_right _ _

/-! ### Claim C5 -/

/-- C5: when the planner output cannot be parsed as structured plan data, the
run terminates with no report (`goto "__end__"`) exactly when the
plan-iteration counter is 0, and on any later iteration it routes to the
reporter (synthesis) instead — both in `planner_node` and in
`human_feedback_node` (whose check runs after the counter was incremented). -/
theorem plan_parse_failure_abort_iff (plan_iterations : Nat) :
    (planner_goto_after_parse Option.none plan_iterations = "__end__"
      ↔ plan_iterations = 0)
    ∧ (planner_goto_after_parse Option.none plan_iterations = "reporter"
      ↔ plan_iterations ≠ 0)
    ∧ (human_feedback_goto_after_parse Option.none plan_iterations = "__end__"
      ↔ plan_iterations = 0)
    ∧ (human_feedback_goto_after_parse Option.none plan_iterations = "reporter"
      ↔ plan_iterations ≠ 0) := by
  by_cases h : plan_iterations = 0
  · simp [planner_goto_after_parse, human_feedback_goto_after_parse, h]
  · simp [planner_goto_after_parse, human_feedback_goto_after_parse, h,
      Nat.pos_of_ne_zero h]

/-! ### Claim C10 -/

/-- C10: human-approval payload matching is case-insensitive (via `toUpper`)
and prefix-based: non-empty feedback whose uppercased form starts with
`[EDIT_PLAN]` routes back to planning carrying the feedback, non-empty
feedback whose uppercased form starts with `[ACCEPTED]` (trailing text
allowed) is acceptance, a `TypeError` is raised exactly when the feedback is
empty or matches neither prefix, and when `auto_accepted_plan` is set the
payload is never inspected. -/
theorem human_feedback_payload_matching (feedback : String) :
    human_feedback_decision true feedback = .auto_accepted
    ∧ (human_feedback_decision false feedback = .edit_plan feedback
        ↔ feedback ≠ "" ∧ py_startswith (py_upper feedback) "[EDIT_PLAN]" = true)
    ∧ (human_feedback_decision false feedback = .accepted
        ↔ feedback ≠ "" ∧ py_startswith (py_upper feedback) "[EDIT_PLAN]" = false
            ∧ py_startswith (py_upper feedback) "[ACCEPTED]" = true)
    ∧ (human_feedback_decision false feedback = .type_error
        ↔ feedback = "" ∨ (py_startswith (py_upper feedback) "[EDIT_PLAN]" = false
            ∧ py_startswith (py_upper feedback) "[ACCEPTED]" = false)) := by
  refine ⟨rfl, ?_, ?_, ?_⟩ <;>
  · by_cases h0 : feedback = "" <;>
      by_cases h1 : py_startswith (py_upper feedback) "[EDIT_PLAN]" <;>
        by_cases h2 : py_startswith (py_upper feedback) "[ACCEPTED]" <;>
          simp [human_feedback_decision, h0, h1, h2]

/-! ### Claim C1 -/

/-- A plan whose single step carries a recorded result (terminal). -/
def all_done_plan : Plan :=
  { locale := "en-US", has_enough_context := false, thought := "analysis",
    title := "demo plan",
    steps := [{ need_search := true, title := "step one", description := "collect data",
                step_type := .research, execution_res := some "finding one",
                execution_status := .completed }] }

/-- C1 counterexample: on a plan in which every step has a recorded result,
`continue_to_running_research_team` routes back to the planner, not to the
reporter (the synthesizing target). -/
theorem research_team_all_done_routes_to_planner :
    continue_to_running_research_team (some all_done_plan) = some "planner"
    ∧ continue_to_running_research_team (some all_done_plan) ≠ some "reporter" := by
  constructor <;> decide

/-- C1 (amended): for every plan with at least one step in which every step
has a (truthy) recorded result, the database research-team routing function
routes to the reporter, while the general research-team routing function
routes back to the planner (the reporter is only reached from there via the
planner node). -/
theorem routing_when_all_steps_done (plan : Plan)
    (hne : plan.steps ≠ [])
    (hall : ∀ s ∈ plan.steps, resTruthy s.execution_res = true) :
    continue_to_running_research_team (some plan) = some "planner"
    ∧ continue_to_running_database_research_team (some plan) = some "reporter" := by
  have hAll : plan.steps.all (fun s => resTruthy s.execution_res) = true :=
    List.all_eq_true.mpr hall
  have hisEmpty : plan.steps.isEmpty = false := by
    cases h : plan.steps with
    | nil => exact absurd h hne
    | cons a as => rfl
  constructor <;>
    simp [continue_to_running_research_team,
      continue_to_running_database_research_team, hisEmpty, hAll]

/-- C1 amended-claim witness at a concrete all-done plan. -/
theorem routing_when_all_steps_done_witness :
    continue_to_running_research_team (some all_done_plan) = some "planner"
    ∧ continue_to_running_database_research_team (some all_done_plan) = some "reporter" :=
  routing_when_all_steps_done all_done_plan (by decide) (by decide)

/-! ### Claim C8 -/

/-- C8 counterexample: the tiktoken-based batch counter formats the whole
batch into one newline-joined string and tokenizes it at once, so splitting a
two-message list into two singleton lists changes the count (shown with the
character-length encoding as the abstract external tokenizer: the seam
separator is counted in the batch but in neither sublist). -/
theorem tiktoken_batch_count_not_additive :
    tiktoken_count_messages_tokens String.length
        [⟨"user", "aa"⟩, ⟨"assistant", "bb"⟩]
      ≠ tiktoken_count_messages_tokens String.length [⟨"user", "aa"⟩]
        + tiktoken_count_messages_tokens String.length [⟨"assistant", "bb"⟩] := by
  decide

/-- C8 (amended): batch counting is exactly additive for the approximate
counter (the batch count of a concatenation is the sum of the batch counts,
each message contributing its content count plus a fixed per-entry overhead),
for every characters-per-token ratio; the tiktoken counter does not have this
property because it tokenizes the newline-joined formatted batch as a whole. -/
theorem approx_count_messages_tokens_additive (chars_per_token_tenths : Nat)
    (xs ys : List MessageDict) :
    approx_count_messages_tokens chars_per_token_tenths (xs ++ ys)
      = approx_count_messages_tokens chars_per_token_tenths xs
        + approx_count_messages_tokens chars_per_token_tenths ys := by
  unfold approx_count_messages_tokens
  rcases xs with _ | ⟨x, xs⟩
  · simp
  rcases ys with _ | ⟨y, ys⟩
  · simp
  · simp only [List.cons_append, List.map_append, List.sum_append, List.map_cons,
      List.sum_cons, List.length_append, List.length_cons,
      if_neg (List.cons_ne_nil _ _)]
    ring

/-! ### Claim C2 -/

/-- A pending step about to be executed by the base executor. -/
def c2_step : Step :=
  { need_search := true, title := "risky step", description := "collect data",
    step_type := .research }

/-- A provider rejection classified as a content-policy error by
`is_content_safety_error`. -/
def c2_error : ProviderError :=
  ⟨true, "Error code: 400 - Content Exists Risk"⟩

/-- C2 counterexample: the base `_execute_agent_step` (src/graph/nodes.py), on
a content-policy error, records the synthetic safety placeholder and continues
— but it never assigns `execution_status`, so the step's status stays
`pending` instead of becoming `skipped`. -/
theorem base_executor_content_policy_keeps_status_pending :
    (execute_agent_step c2_step [] (.error c2_error)).map
        (fun outcome => outcome.step.execution_status) = some .pending
    ∧ ExecutionStatus.pending ≠ .skipped := by
  constructor <;> decide

/-- C2 (amended): in the dependency-enhanced executor
`_execute_agent_step_with_dependencies`, every executor exception whose
message contains the content-policy marker makes the step `skipped`, records
the clearly-labeled placeholder as the step result, appends that placeholder
to the observation list, and returns control to the research-team router; the
base `_execute_agent_step` also records a placeholder and continues but leaves
`execution_status` untouched (it tracks completion via `execution_res` only). -/
theorem enhanced_executor_content_policy (current_step : Step)
    (observations : List String) (error_message : String)
    (h : str_has error_message "Content Exists Risk" = true) :
    (execute_agent_step_with_dependencies current_step observations
        (.error error_message)).step.execution_status = .skipped
    ∧ (execute_agent_step_with_dependencies current_step observations
        (.error error_message)).step.execution_res
      = some "Step skipped due to content safety restrictions."
    ∧ (execute_agent_step_with_dependencies current_step observations
        (.error error_message)).observations
      = observations ++ ["Step skipped due to content safety restrictions."]
    ∧ (execute_agent_step_with_dependencies current_step observations
        (.error error_message)).goto = "research_team" := by
  simp [execute_agent_step_with_dependencies, h, resTruthy, py_str_opt]

/-- C2 amended-claim witness: the enhanced executor at a concrete content
policy error. -/
theorem enhanced_executor_content_policy_witness :
    (execute_agent_step_with_dependencies c2_step ["earlier finding"]
        (.error "Error code: 400 - Content Exists Risk")).step.execution_status
      = .skipped
    ∧ (execute_agent_step_with_dependencies c2_step ["earlier finding"]
        (.error "Error code: 400 - Content Exists Risk")).observations
      = ["earlier finding", "Step skipped due to content safety restrictions."] :=
  ⟨(enhanced_executor_content_policy c2_step ["earlier finding"]
      "Error code: 400 - Content Exists Risk" (by decide)).1,
   (enhanced_executor_content_policy c2_step ["earlier finding"]
      "Error code: 400 - Content Exists Risk" (by decide)).2.2.1⟩

/-! ### Claim C3 -/

theorem fallback_trim_ne_nil (messages : List Message) (max_messages : Nat)
    (hne : messages ≠ []) : fallback_trim messages max_messages ≠ [] := by
  unfold fallback_trim
  split
  · exact hne
  · rename_i hlen
    by_cases hS : messages.filter (fun m => m.role == .system) = []
    · have hO : messages.filter (fun m => !(m.role == .system)) = messages := by
        apply List.filter_eq_self.mpr
        intro a ha
        simpa using List.filter_eq_nil_iff.mp hS a ha
      rw [hS, hO, List.nil_append]
      unfold list_tail_slice
      split
      · exact hne
      · rename_i hk
        intro hcontra
        have hlenO := congrArg List.length hcontra
        rw [List.length_drop, List.length_nil] at hlenO
        omega
    · intro hcontra
      exact hS (List.append_eq_nil.mp hcontra).1

/-- The configuration of the C3 counterexample: trimming enabled for the
planner node with a budget of 10 tokens, keep-last, include_system. -/
def c3_cfg : TokenManagementConfig :=
  { enabled := true,
    trimming_strategies :=
      [("planner", { max_tokens := some 10, strategy := some "last",
                     include_system := some true })] }

def c3_messages : List Message := [⟨.user, "aaaa"⟩]

/-- C3 counterexample: with a 10-token budget, the single 11-token user
message fits no suffix, so the (spec-modelled) langchain trim drops every
entry and `trim_messages_for_node` returns the empty message list for a
non-empty input. -/
theorem trim_messages_for_node_can_return_empty :
    trim_messages_for_node c3_cfg true c3_messages "deepseek-chat" "planner" = []
    ∧ c3_messages ≠ [] := by
  constructor <;> decide

/-- C3 (amended): `trim_messages_for_node` never raises — every counting
failure is caught and answered with the `_fallback_trim` heuristic — and that
fallback path never returns an empty list for a non-empty input (it keeps the
system entries plus the most recent others); the successful trim path,
however, can return an empty list when no entry fits the budget. -/
theorem trim_counter_failure_fallback (cfg : TokenManagementConfig)
    (messages : List Message) (model_name node_name : String)
    (hne : messages ≠ []) :
    trim_messages_for_node cfg false messages model_name node_name ≠ []
    ∧ ∀ strategy, get_trimming_strategy cfg node_name = some strategy →
        cfg.enabled = true →
        trim_messages_for_node cfg false messages model_name node_name
          = fallback_trim messages
              (resolve_max_tokens cfg strategy model_name node_name / 100) := by
  constructor
  · unfold trim_messages_for_node
    split
    · exact hne
    · split
      · exact hne
      · exact fallback_trim_ne_nil messages _ hne
  · intro strategy hstrategy henabled
    simp [trim_messages_for_node, henabled, hstrategy]

/-- C3 amended-claim witness: the counting-failure path at a concrete
non-empty input returns a non-empty fallback result. -/
theorem trim_counter_failure_fallback_witness :
    trim_messages_for_node c3_cfg false c3_messages "deepseek-chat" "planner" ≠ [] :=
  (trim_counter_failure_fallback c3_cfg c3_messages "deepseek-chat" "planner"
    (by decide)).1

/-! ### Claim C4 -/

theorem str_length_append (a b : String) : (a ++ b).length = a.length + b.length :=
  List.length_append a.data b.data

theorem truncate_observation_length_le (cfg : TokenManagementConfig)
    (h_summ : cfg.enable_summarization = true)
    (h_half : 1 ≤ cfg.summary_target_length)
    (h_excerpt : cfg.summary_target_length / 2 + (cfg.summary_target_length + 1) / 2 + 31
      ≤ cfg.max_observation_length)
    (obs : String) :
    (truncate_observation cfg obs).length ≤ cfg.max_observation_length := by
  have h31 : ("\n\n[... content truncated ...]\n\n" : String).length = 31 := by decide
  have hz : (cfg.summary_target_length + 1) / 2 ≠ 0 := by omega
  have h1 : (str_take obs (cfg.summary_target_length / 2)).length
      ≤ cfg.summary_target_length / 2 := by
    show (obs.data.take _).length ≤ _
    rw [List.length_take]
    omega
  have h2 : (str_tail obs ((cfg.summary_target_length + 1) / 2)).length
      ≤ (cfg.summary_target_length + 1) / 2 := by
    unfold str_tail
    rw [if_neg hz]
    show (obs.data.drop _).length ≤ _
    rw [List.length_drop]
    omega
  unfold truncate_observation
  by_cases hshort : obs.length ≤ cfg.max_observation_length
  · rw [if_pos hshort]
    exact hshort
  · rw [if_neg hshort, if_pos h_summ]
    simp only [str_length_append]
    omega

theorem mem_cap_observation_count (cfg : TokenManagementConfig)
    (xs : List String) (s : String) (hs : s ∈ cap_observation_count cfg xs) :
    s ∈ xs ∨ s = "[" ++ Nat.repr (xs.length - cfg.max_full_observations)
        ++ " earlier observations summarized]" := by
  unfold cap_observation_count at hs
  split at hs
  · split at hs
    · rcases List.mem_cons.mp hs with h | h
      · right; exact h
      · left
        unfold list_tail_slice at h
        split at h
        · exact h
        · exact List.mem_of_mem_drop h
    · left
      unfold list_tail_slice at hs
      split at hs
      · exact hs
      · exact List.mem_of_mem_drop hs
  · left; exact hs

theorem cap_observation_count_length (cfg : TokenManagementConfig) (xs : List String)
    (h_summ : cfg.enable_summarization = true) (h_K : 1 ≤ cfg.max_full_observations) :
    (cap_observation_count cfg xs).length ≤ max xs.length cfg.max_full_observations := by
  unfold cap_observation_count
  by_cases hgt : xs.length > cfg.max_full_observations
  · rw [if_pos hgt, if_pos h_summ]
    show (_ :: list_tail_slice xs cfg.max_full_observations).length ≤ _
    rw [List.length_cons]
    unfold list_tail_slice
    rw [if_neg (by omega : ¬ cfg.max_full_observations = 0), List.length_drop]
    have := le_max_left xs.length cfg.max_full_observations
    omega
  · rw [if_neg hgt]
    exact le_max_of_le_left le_rfl

/-- The configuration of the C4 counterexample: a 10-character entry cap with
the (independent) excerpt target still at its default of 1000 characters. -/
def c4_cfg : TokenManagementConfig :=
  { enabled := true, max_full_observations := 3, max_observation_length := 10,
    enable_summarization := true, summary_target_length := 1000 }

/-- C4 counterexample: an 11-character observation exceeds the 10-character
cap, so it is replaced by a head+tail excerpt with a truncation marker — but
that excerpt (head and tail each up to half of `summary_target_length`, plus
the 31-character marker) is 53 characters long, far above
`max_observation_length`.  The per-entry bound claimed for every input list
fails. -/
theorem observation_entry_exceeds_length_cap :
    ¬ ∀ entry ∈ manage_observations c4_cfg ["aaaaaaaaaaa"],
        entry.length ≤ c4_cfg.max_observation_length := by decide

/-- C4 (amended): with compaction enabled and summarization on, whenever the
head+tail excerpt (a floor-half head, a ceiling-half tail and the 31-character
marker) fits within `max_observation_length`, `max_full_observations` is at
least 1, and the "N earlier observations summarized" marker for this input
also fits the cap, the output length is at most
`max(len(input), max_full_observations)`, every output entry is at most
`max_observation_length` characters, and per-entry length-capping is applied
before count-capping. -/
theorem manage_observations_caps (cfg : TokenManagementConfig)
    (observations : List String)
    (h_en : cfg.enabled = true)
    (h_summ : cfg.enable_summarization = true)
    (h_half : 1 ≤ cfg.summary_target_length)
    (h_excerpt : cfg.summary_target_length / 2 + (cfg.summary_target_length + 1) / 2 + 31
      ≤ cfg.max_observation_length)
    (h_K : 1 ≤ cfg.max_full_observations)
    (h_marker : (Nat.repr (observations.length - cfg.max_full_observations)).length + 34
        ≤ cfg.max_observation_length) :
    (manage_observations cfg observations).length
        ≤ max observations.length cfg.max_full_observations
    ∧ (∀ entry ∈ manage_observations cfg observations,
        entry.length ≤ cfg.max_observation_length)
    ∧ manage_observations cfg observations
        = cap_observation_count cfg (observations.map (truncate_observation cfg)) := by
  have heq : manage_observations cfg observations
      = cap_observation_count cfg (observations.map (truncate_observation cfg)) := by
    unfold manage_observations
    rw [h_en]
    rfl
  refine ⟨?_, ?_, heq⟩
  · rw [heq]
    have := cap_observation_count_length cfg
      (observations.map (truncate_observation cfg)) h_summ h_K
    rwa [List.length_map] at this
  · intro entry hentry
    rw [heq] at hentry
    rcases mem_cap_observation_count cfg _ entry hentry with h | h
    · rcases List.mem_map.mp h with ⟨o, _, rfl⟩
      exact truncate_observation_length_le cfg h_summ h_half h_excerpt o
    · rw [h, str_length_append, str_length_append, List.length_map]
      have h1 : ("[" : String).length = 1 := by decide
      have h33 : (" earlier observations summarized]" : String).length = 33 := by decide
      omega

/-- C4 amended-claim witness: the default configuration (entry cap 5000,
excerpt target 1000, keep 3 full observations) on a four-entry input. -/
theorem manage_observations_caps_witness :
    (manage_observations { enabled := true } ["a", "bb", "ccc", "dddd"]).length
      ≤ max (["a", "bb", "ccc", "dddd"] : List String).length
          (TokenManagementConfig.max_full_observations { enabled := true }) :=
  (manage_observations_caps { enabled := true } ["a", "bb", "ccc", "dddd"]
    (by decide) (by decide) (by decide) (by decide) (by decide) (by decide)).1

/-! ### Claim C6 -/

def c6_dep_step : Step :=
  { need_search := true, title := "dependency step", description := "gather figures",
    step_type := .research, execution_res := some "SECRET-RESULT-TEXT",
    execution_status := .skipped }

def c6_current_step : Step :=
  { need_search := false, title := "current step", description := "combine figures",
    step_type := .processing, depends_on := [0], dependency_type := .summary }

def c6_plan : Plan :=
  { locale := "en-US", has_enough_context := false, thought := "analysis",
    title := "demo", steps := [c6_dep_step, c6_current_step] }

/-- C6 counterexample: the declared dependency has status `skipped` (not
`completed`), yet the built context contains the dependency's recorded result
text — the builder does not restrict itself to a short status note. -/
theorem context_includes_noncompleted_dependency_result :
    str_has ((build_context_for_step 1 [c6_dep_step] c6_plan c6_current_step).getD "")
      "SECRET-RESULT-TEXT" = true := by decide

/-- C6 (amended): for a declared dependency whose status is not `completed`,
the context builder emits a status-annotated heading and, whenever the
dependency carries a (truthy) recorded result, additionally includes that
result text inside finding tags; only when no result is recorded does it emit
just the short failure note. -/
theorem dep_block_noncompleted (completed_steps : List Step)
    (current_step_def : Step) (dep_index : Nat) (dep_step : Step)
    (hget : completed_steps[dep_index]? = some dep_step)
    (hstatus : dep_step.execution_status ≠ .completed) :
    (resTruthy dep_step.execution_res = true →
      dep_block completed_steps current_step_def dep_index
        = "## Completed Step " ++ Nat.repr (dep_index + 1) ++ ": " ++ dep_step.title
          ++ " (Status: " ++ status_value dep_step.execution_status ++ ")\n"
          ++ ("<finding>\n" ++ py_str_opt dep_step.execution_res ++ "\n</finding>\n\n"))
    ∧ (resTruthy dep_step.execution_res = false →
      dep_block completed_steps current_step_def dep_index
        = "## Completed Step " ++ Nat.repr (dep_index + 1) ++ ": " ++ dep_step.title
          ++ " (Status: " ++ status_value dep_step.execution_status ++ ")\n"
          ++ "No results available due to execution failure.\n\n") := by
  constructor <;> intro hres <;> simp [dep_block, hget, hstatus, hres]

/-- C6 amended-claim witness: a skipped dependency with a recorded result gets
the status heading plus the result in finding tags. -/
theorem dep_block_noncompleted_witness :
    dep_block [c6_dep_step] c6_current_step 0
      = "## Completed Step " ++ Nat.repr 1 ++ ": " ++ c6_dep_step.title
        ++ " (Status: " ++ status_value c6_dep_step.execution_status ++ ")\n"
        ++ ("<finding>\n" ++ py_str_opt c6_dep_step.execution_res ++ "\n</finding>\n\n") :=
  (dep_block_noncompleted [c6_dep_step] c6_current_step 0 c6_dep_step (by decide)
    (by decide)).1 (by decide)

/-! ### Claim C7 -/

theorem topic_relevant_lines_mem (ts : List String) :
    ∀ (lines : List String) (l : String), l ∈ topic_relevant_lines ts lines →
      (∃ orig ∈ lines, line_matches ts orig = true ∧ l = py_strip orig)
      ∨ ∃ p ∈ lines.zip lines.tail,
          line_matches ts p.1 = true ∧ py_strip p.2 ≠ "" ∧ l = py_strip p.2 := by
  intro lines
  induction lines with
  | nil => intro l hl; simp [topic_relevant_lines] at hl
  | cons line rest ih =>
    cases rest with
    | nil =>
      intro l hl
      by_cases hm : line_matches ts line = true
      · rw [show topic_relevant_lines ts [line]
            = if line_matches ts line then [py_strip line] else [] from rfl,
          if_pos hm] at hl
        rcases List.mem_singleton.mp hl with rfl
        exact Or.inl ⟨line, List.mem_singleton_self _, hm, rfl⟩
      · rw [show topic_relevant_lines ts [line]
            = if line_matches ts line then [py_strip line] else [] from rfl,
          if_neg hm] at hl
        exact absurd hl (List.not_mem_nil _)
    | cons next rest2 =>
      intro l hl
      rw [show topic_relevant_lines ts (line :: next :: rest2)
          = (if line_matches ts line then
              py_strip line :: (if py_strip next != "" then [py_strip next] else [])
             else [])
            ++ topic_relevant_lines ts (next :: rest2) from rfl] at hl
      rcases List.mem_append.mp hl with h | h
      · by_cases hm : line_matches ts line = true
        · rw [if_pos hm] at h
          rcases List.mem_cons.mp h with rfl | h2
          · exact Or.inl ⟨line, List.mem_cons_self _ _, hm, rfl⟩
          · by_cases hn : py_strip next != ""
            · rw [if_pos hn] at h2
              rcases List.mem_singleton.mp h2 with rfl
              refine Or.inr ⟨(line, next), ?_, hm, by simpa using hn, rfl⟩
              show (line, next) ∈ (line, next) :: (next :: rest2).zip rest2
              exact List.mem_cons_self _ _
            · rw [if_neg hn] at h2
              exact absurd h2 (List.not_mem_nil _)
        · rw [if_neg hm] at h
          exact absurd h (List.not_mem_nil _)
      · rcases ih l h with ⟨orig, ho, hmm, hstrip⟩ | ⟨p, hp, h1, h2, h3⟩
        · exact Or.inl ⟨orig, List.mem_cons_of_mem _ ho, hmm, hstrip⟩
        · refine Or.inr ⟨p, ?_, h1, h2, h3⟩
          show p ∈ (line, next) :: (next :: rest2).zip rest2
          exact List.mem_cons_of_mem _ hp

theorem topic_relevant_lines_eq_nil_iff (ts : List String) :
    ∀ lines : List String,
      topic_relevant_lines ts lines = [] ↔ ∀ line ∈ lines, line_matches ts line = false := by
  intro lines
  induction lines with
  | nil => simp [topic_relevant_lines]
  | cons line rest ih =>
    cases rest with
    | nil =>
      by_cases hm : line_matches ts line = true <;>
        simp [topic_relevant_lines, hm]
    | cons next rest2 =>
      by_cases hm : line_matches ts line = true <;>
        simp [topic_relevant_lines, hm, ih]

theorem str_has_double_append (p a b : String) : str_has (p ++ a ++ b) p = true := by
  unfold str_has
  show list_contains_sub p.data ((p.data ++ a.data) ++ b.data) = true
  rw [List.append_assoc]
  exact list_contains_sub_of_starts _ _ (list_starts_with_append _ _)

theorem extract_topic_block_has_header (execution_result info_type : String) :
    str_has (extract_topic_block execution_result info_type)
      ("### " ++ info_type) = true := by
  unfold extract_topic_block
  split
  · exact str_has_double_append ("### " ++ info_type) "\n" _
  · exact str_has_append_left ("### " ++ info_type) "\nNo specific data found"

/-- C7 (amended): the per-topic extraction collects, in order, each matching
line (stripped) followed by its stripped non-blank successor, and the cap of 3
is applied to that combined list — so at most 3 lines total per topic, and the
trailing context line of a later match may be cut off; every included line is
a stripped matching line or the stripped immediate successor of a matching
line; a topic with no matching line yields an explicit "No specific data
found" entry; every requested topic appears under its own `### topic` header,
and the overall output is the double-newline join of the per-topic blocks. -/
theorem key_points_extraction_behavior (execution_result info_type : String)
    (required_info : List String) :
    (extract_required_info execution_result required_info
      = if required_info = [] then "No specific information requested"
        else String.intercalate "\n\n"
              (required_info.map (extract_topic_block execution_result)))
    ∧ ((topic_relevant_lines (search_terms_of info_type)
          (py_split_char execution_result (Char.ofNat 10))).take 3).length ≤ 3
    ∧ (∀ l ∈ (topic_relevant_lines (search_terms_of info_type)
          (py_split_char execution_result (Char.ofNat 10))).take 3,
        (∃ orig ∈ py_split_char execution_result (Char.ofNat 10),
            line_matches (search_terms_of info_type) orig = true ∧ l = py_strip orig)
        ∨ ∃ p ∈ (py_split_char execution_result (Char.ofNat 10)).zip
              (py_split_char execution_result (Char.ofNat 10)).tail,
            line_matches (search_terms_of info_type) p.1 = true
              ∧ py_strip p.2 ≠ "" ∧ l = py_strip p.2)
    ∧ ((∀ line ∈ py_split_char execution_result (Char.ofNat 10),
          line_matches (search_terms_of info_type) line = false) →
        extract_topic_block execution_result info_type
          = "### " ++ info_type ++ "\nNo specific data found")
    ∧ str_has (extract_topic_block execution_result info_type)
        ("### " ++ info_type) = true := by
  refine ⟨?_, ?_, ?_, ?_, extract_topic_block_has_header execution_result info_type⟩
  · unfold extract_required_info
    cases required_info with
    | nil => simp
    | cons t ts => simp
  · exact le_trans (List.length_take_le 3 _) le_rfl
  · intro l hl
    exact topic_relevant_lines_mem (search_terms_of info_type) _ l
      (List.mem_of_mem_take hl)
  · intro hnone
    have hnil : topic_relevant_lines (search_terms_of info_type)
        (py_split_char execution_result (Char.ofNat 10)) = [] :=
      (topic_relevant_lines_eq_nil_iff (search_terms_of info_type)
        (py_split_char execution_result (Char.ofNat 10))).mpr hnone
    unfold extract_topic_block
    rw [hnil]
    simp

/-- C7 counterexample: two matching lines, each followed by a context line.
The claim predicts the output holds both matching lines and both trailing
context lines, but the cap of 3 is applied to the combined list, so the second
context line (`ctx two`) is dropped from the output. -/
theorem key_points_cap_drops_context :
    extract_required_info "data one\nctx one\ndata two\nctx two" ["data"]
      = "### data\ndata one\nctx one\ndata two"
    ∧ str_has (extract_required_info "data one\nctx one\ndata two\nctx two" ["data"])
        "ctx two" = false := by
  constructor <;> decide

/-- C7 amended-claim witness: a topic with no matching line yields the
explicit no-data entry. -/
theorem key_points_extraction_behavior_witness :
    extract_topic_block "nothing here" "zzz" = "### " ++ "zzz" ++ "\nNo specific data found" :=
  (key_points_extraction_behavior "nothing here" "zzz" ["zzz"]).2.2.2.1 (by decide)

end DeerFlow
